import Mathlib

/-!
Shallow embedding of the relationship-intelligence engine: the LinkedIn
import/merge code (`brain/human/ingest/linkedin.py`), the derivation library
(`brain/human/analysis/network_intel.py`, `pattern_detect.py`,
`goal_alignment.py`), the aggregation layer (`run_all.py`) and the SDK
loaders (`brain/sdk/python/brain/loaders.py`), together with theorems
checking the specification's claims about them.

Conventions used throughout:
* A Python dict field is a `Fld α`: the key can be absent (`missing`),
  present with value `None` (`null`), or present with a value (`val a`).
* Python `None` at value positions is `Option.none`; `None` rendered inside
  an f-string prints as the string `"None"` (`pyStr`).
* Fallible Python operations (KeyError, TypeError, ValueError,
  AttributeError, FileNotFoundError) are embedded in `Except PyErr`.
* `datetime.now()` is passed in explicitly as a `today : Date` parameter at
  day granularity; the source only ever turns `now` into a `YYYY-MM-DD`
  string or subtracts whole days from it before formatting.
* Date fields travel as strings, exactly as in the source; comparisons on
  them are the lexicographic string order the source uses, which the spec
  (section 7) adopts as the system's date order.
* `list.sort` / `sorted` are Python's stable sort; they are modelled by a
  stable insertion sort (`pySort`) whose insertion predicate is the strict
  "key strictly before key" test, so equal keys keep encounter order.
-/

namespace Brain

/-- Error taxonomy of the Python exceptions the embedded code can raise. -/
inductive PyErr where
  | keyError
  | typeError
  | valueError
  | attributeError
  | fileNotFoundError
  deriving DecidableEq

/-- Value of one key of a Python dict: the key can be absent, present with
value `None`, or present with a proper value. -/
inductive Fld (α : Type) where
  | missing
  | null
  | val (a : α)
  deriving DecidableEq

namespace Fld

/-- Models `d.get(k, dflt)`: an absent key yields the default, a present key
yields its value (`none` is Python `None`). -/
def getD : Fld α → α → Option α
  | .missing, d => some d
  | .null, _ => none
  | .val a, _ => some a

/-- Models `d.get(k)`: absent key and a `None` value both yield `None`. -/
def get? : Fld α → Option α
  | .missing => none
  | .null => none
  | .val a => some a

/-- Models `d[k]`: an absent key raises KeyError, a present key yields its
value. -/
def item : Fld α → Except PyErr (Option α)
  | .missing => .error .keyError
  | .null => .ok none
  | .val a => .ok (some a)

/-- Builds the field stored for a Python value that may be `None`. -/
def ofOpt : Option α → Fld α
  | none => .null
  | some a => .val a

end Fld

/-- Python truthiness of a string-or-None value: `None` and `""` are falsy. -/
def truthyS : Option String → Bool
  | none => false
  | some s => !s.isEmpty

/-- Python truthiness of a list-or-None value: `None` and `[]` are falsy. -/
def truthyL : Option (List α) → Bool
  | none => false
  | some l => !l.isEmpty

/-- Models Python `a or b` on string-or-None values. -/
def pyOr (a b : Option String) : Option String :=
  if truthyS a then a else b

/-- Models rendering a string-or-None value inside an f-string. -/
def pyStr : Option String → String
  | none => "None"
  | some s => s

/-- Inserts `a` before the first element it is strictly less than, i.e.
after every element whose key ties with it. -/
def pyInsert (lt : α → α → Bool) (a : α) : List α → List α
  | [] => [a]
  | b :: l => if lt a b then a :: b :: l else b :: pyInsert lt a l

/-- Stable sort modelling Python `sorted` / `list.sort`: elements are taken
in encounter order and each is placed after all earlier elements whose sort
key does not strictly exceed its own. -/
def pySort (lt : α → α → Bool) (l : List α) : List α :=
  l.foldl (fun acc a => pyInsert lt a acc) []

/-- Calendar date, the day-granularity stand-in for `datetime`. -/
structure Date where
  y : Nat
  m : Nat
  d : Nat
  deriving DecidableEq

/-- Gregorian leap-year test. -/
def isLeap (y : Nat) : Bool :=
  y % 4 == 0 && (y % 100 != 0 || y % 400 == 0)

/-- Length of month `m` of year `y`. -/
def daysInMonth (y m : Nat) : Nat :=
  if m == 2 then (if isLeap y then 29 else 28)
  else if m == 4 || m == 6 || m == 9 || m == 11 then 30
  else 31

/-- Days of year `y` that precede month `m`. -/
def daysBeforeMonth (y m : Nat) : Nat :=
  (List.range (m - 1)).foldl (fun acc i => acc + daysInMonth y (i + 1)) 0

/-- Day number of a date (rata die), used for the day differences the
source computes with `datetime` subtraction. -/
def rataDie (dt : Date) : Nat :=
  365 * (dt.y - 1) + (dt.y - 1) / 4 - (dt.y - 1) / 100 + (dt.y - 1) / 400
    + daysBeforeMonth dt.y dt.m + dt.d

/-- The previous calendar day. -/
def predDay (dt : Date) : Date :=
  if 1 < dt.d then { dt with d := dt.d - 1 }
  else if 1 < dt.m then { y := dt.y, m := dt.m - 1, d := daysInMonth dt.y (dt.m - 1) }
  else { y := dt.y - 1, m := 12, d := 31 }

/-- Models `dt - timedelta(days := n)`. -/
def dateSub (dt : Date) : Nat → Date
  | 0 => dt
  | n + 1 => predDay (dateSub dt n)

/-- Zero-pads a number to width `w`. -/
def padZ (w n : Nat) : String :=
  let s := toString n
  String.mk (List.replicate (w - s.length) '0') ++ s

/-- Models `dt.strftime("%Y-%m-%d")`. -/
def formatYmd (dt : Date) : String :=
  padZ 4 dt.y ++ "-" ++ padZ 2 dt.m ++ "-" ++ padZ 2 dt.d

/-- Code-point comparison of characters, the primitive of Python's string
order. -/
def charLtB (a b : Char) : Bool :=
  a.toNat < b.toNat

/-- Lexicographic code-point order on character lists. -/
def strLtB : List Char → List Char → Bool
  | [], [] => false
  | [], _ :: _ => true
  | _ :: _, [] => false
  | a :: as, b :: bs =>
    if charLtB a b then true else if charLtB b a then false else strLtB as bs

/-- Models Python `a < b` on strings: lexicographic by code point. -/
def pyLt (a b : String) : Bool :=
  strLtB a.data b.data

/-- ASCII lowering of one character (`str.lower` on the ASCII data this
system carries). -/
def lowerChar (c : Char) : Char :=
  if 65 ≤ c.toNat ∧ c.toNat ≤ 90 then Char.ofNat (c.toNat + 32) else c

/-- Models `s.lower()`. -/
def pyLower (s : String) : String :=
  String.mk (s.data.map lowerChar)

/-- ASCII decimal digit test. -/
def isDigitB (c : Char) : Bool :=
  48 ≤ c.toNat && c.toNat ≤ 57

/-- Value of a nonempty all-digit chunk, `none` otherwise. -/
def chunkToNat? (l : List Char) : Option Nat :=
  if l ≠ [] ∧ l.all isDigitB then
    some (l.foldl (fun n c => 10 * n + (c.toNat - 48)) 0)
  else none

/-- Splits a character list at the separator's occurrences, scanning left
to right; the fuel always suffices at `length + 1`. -/
def splitChunksF (sep : List Char) : Nat → List Char → List (List Char)
  | 0, rest => [rest]
  | fuel + 1, l =>
    if sep.isPrefixOf l then
      [] :: splitChunksF sep fuel (l.drop sep.length)
    else match l with
      | [] => [[]]
      | c :: rest =>
        match splitChunksF sep fuel rest with
        | [] => [[c]]
        | g :: gs => (c :: g) :: gs

/-- Models `s.split(sep)` for a nonempty separator. -/
def pySplitOn (s sep : String) : List String :=
  (splitChunksF sep.data (s.data.length + 1) s.data).map String.mk

/-- Models `datetime.strptime(s, "%Y-%m-%d")`: a 4-digit year, 1- or
2-digit month and day in range, nothing left over; `none` is the
`ValueError` case. -/
def parseYmd (s : String) : Option Date :=
  match splitChunksF ['-'] (s.data.length + 1) s.data with
  | [ys, ms, ds] =>
    match chunkToNat? ys, chunkToNat? ms, chunkToNat? ds with
    | some y, some m, some d =>
      if ys.length = 4 ∧ 1 ≤ y ∧ ms.length ≤ 2 ∧ 1 ≤ m ∧ m ≤ 12
          ∧ ds.length ≤ 2 ∧ 1 ≤ d ∧ d ≤ daysInMonth y m
      then some ⟨y, m, d⟩ else none
    | _, _, _ => none
  | _ => none

/-- Models Python `needle in hay` on strings (substring test). -/
def strContains (hay needle : String) : Bool :=
  hay.data.tails.any (fun t => needle.data.isPrefixOf t)

/-- Models `sep.join(items)`. -/
def joinSep (sep : String) : List String → String
  | [] => ""
  | [s] => s
  | s :: rest => s ++ sep ++ joinSep sep rest

/-- Models `s.strip(chr)` for a single strip character. -/
def pyStrip (c : Char) (s : String) : String :=
  String.mk (((s.data.dropWhile (· = c)).reverse.dropWhile (· = c)).reverse)

/-- Models the Python string slice `s[:n]` (by code points). -/
def strTake (s : String) (n : Nat) : String :=
  String.mk (s.data.take n)

/-- Models `max(strings)`: Python keeps the current maximum unless a later
element is strictly greater. -/
def pyMaxS (l : List String) : Option String :=
  l.foldl (fun acc s =>
    match acc with
    | none => some s
    | some t => if pyLt t s then some s else acc) none

/-- Nearest integer with ties to even, the rational counterpart of Python's
`round` on the float ratio `num / den` (the float detour agrees with the
rational value at every realistically-sized input). -/
def roundHE (num den : Nat) : Nat :=
  let q := num / den
  let r := num % den
  if den < 2 * r then q + 1
  else if 2 * r < den then q
  else if q % 2 = 0 then q else q + 1

/-!
Ingest / merge engine, from `brain/human/ingest/linkedin.py`.
-/

/-- The `Connection` dataclass of `linkedin.py`, with its field defaults. -/
structure Connection where
  id : String
  name : String
  first_name : String
  last_name : String
  email : Option String := none
  company : Option String := none
  position : Option String := none
  connected_date : Option String := none
  relationship_strength : String := "cold"
  message_count : Nat := 0
  last_message : Option String := none
  context : String := ""
  domains : List String := []
  can_ask_for : List String := []
  has_asked_you : List String := []
  introduces_to : List String := []
  notes : String := ""
  last_contact : Option String := none
  contact_frequency : Option String := none
  positives : List String := []
  negatives : List String := []
  trust_level : Option String := none
  energy : Option String := none
  deriving DecidableEq

/-- A connection record as a dict: the shape of `Connection.to_dict()`
output and of the records loaded back from `network.yaml`. Every key the
source ever reads is a field; `missing` models a key deleted by hand
editing. -/
structure ConnR where
  id : Fld String := .missing
  name : Fld String := .missing
  email : Fld String := .missing
  company : Fld String := .missing
  position : Fld String := .missing
  connected_date : Fld String := .missing
  relationship_strength : Fld String := .missing
  message_count : Fld Nat := .missing
  last_message : Fld String := .missing
  context : Fld String := .missing
  domains : Fld (List String) := .missing
  can_ask_for : Fld (List String) := .missing
  has_asked_you : Fld (List String) := .missing
  introduces_to : Fld (List String) := .missing
  notes : Fld String := .missing
  last_contact : Fld String := .missing
  contact_frequency : Fld String := .missing
  positives : Fld (List String) := .missing
  negatives : Fld (List String) := .missing
  trust_level : Fld String := .missing
  energy : Fld String := .missing
  deriving DecidableEq

/-- `Connection.to_dict`: every listed key is present; `None`-valued
attributes become `None`-valued keys. (`first_name`/`last_name` are not
exported.) -/
def Connection.to_dict (c : Connection) : ConnR :=
  { id := .val c.id
  , name := .val c.name
  , email := .ofOpt c.email
  , company := .ofOpt c.company
  , position := .ofOpt c.position
  , connected_date := .ofOpt c.connected_date
  , relationship_strength := .val c.relationship_strength
  , message_count := .val c.message_count
  , last_message := .ofOpt c.last_message
  , context := .val c.context
  , domains := .val c.domains
  , can_ask_for := .val c.can_ask_for
  , has_asked_you := .val c.has_asked_you
  , introduces_to := .val c.introduces_to
  , notes := .val c.notes
  , last_contact := .ofOpt c.last_contact
  , contact_frequency := .ofOpt c.contact_frequency
  , positives := .val c.positives
  , negatives := .val c.negatives
  , trust_level := .ofOpt c.trust_level
  , energy := .ofOpt c.energy }

/-- One parsed message row: `{'date': self._parse_date(date), 'sender': sender}`.
Only the date is ever read afterwards. -/
structure Msg where
  date : Option String
  deriving DecidableEq

/-- The relationship-strength pass of `parse_messages` for one connection:
look up the messages by full name, fall back to first name when that list
is empty, store the count, and when messages exist derive `last_message`
and the strength from the fixed thresholds. `messages` is the
name-to-messages dict as an association list. -/
def assignStrength (messages : List (String × List Msg)) (c : Connection) : Connection :=
  let msgs := (messages.lookup c.name).getD []
  let msgs := if msgs.isEmpty then (messages.lookup c.first_name).getD [] else msgs
  let c := { c with message_count := msgs.length }
  if msgs.isEmpty then c
  else
    let dates := msgs.filterMap (fun m => if truthyS m.date then m.date else none)
    let c := if dates.isEmpty then c else { c with last_message := pyMaxS dates }
    if 10 ≤ msgs.length then { c with relationship_strength := "close" }
    else if 3 ≤ msgs.length then { c with relationship_strength := "warm" }
    else { c with relationship_strength := "cold" }

/-- The `for conn_id, conn in self.connections.items()` strength loop of
`parse_messages`, over the batch in dict insertion order. -/
def parseMessagesStrengths (messages : List (String × List Msg))
    (conns : List Connection) : List Connection :=
  conns.map (assignStrength messages)

/-- Inserts or replaces key `k` in a dict modelled as an association list,
keeping the position of an existing key (Python dict update semantics). -/
def dictInsert (k : Option String) (v : ConnR) :
    List (Option String × ConnR) → List (Option String × ConnR)
  | [] => [(k, v)]
  | (k', v') :: rest =>
    if k' = k then (k', v) :: rest else (k', v') :: dictInsert k v rest

/-- Builds the `existing` dict of `export_network` from the `connections`
list of the previously written `network.yaml`: `existing[conn['id']] = conn`
for each record, raising KeyError when a record has no `id` key. A `None`
id is a legal dict key. -/
def existingOf (olds : List ConnR) : Except PyErr (List (Option String × ConnR)) :=
  olds.foldlM
    (fun acc c =>
      match c.id with
      | .missing => .error PyErr.keyError
      | .null => .ok (dictInsert none c acc)
      | .val s => .ok (dictInsert (some s) c acc))
    []

/-- The manual-enrichment preservation step of `export_network`: for each
field of the fixed list, a truthy old value overwrites the freshly computed
one (`if old.get(field): conn_dict[field] = old[field]`). The loop's
assignments touch pairwise distinct keys, so they are rendered as one
simultaneous record update. -/
def preserveManual (dNew old : ConnR) : ConnR :=
  { dNew with
    context := if truthyS old.context.get? then old.context else dNew.context
  , domains := if truthyL old.domains.get? then old.domains else dNew.domains
  , can_ask_for := if truthyL old.can_ask_for.get? then old.can_ask_for else dNew.can_ask_for
  , has_asked_you := if truthyL old.has_asked_you.get? then old.has_asked_you else dNew.has_asked_you
  , introduces_to := if truthyL old.introduces_to.get? then old.introduces_to else dNew.introduces_to
  , notes := if truthyS old.notes.get? then old.notes else dNew.notes
  , last_contact := if truthyS old.last_contact.get? then old.last_contact else dNew.last_contact
  , contact_frequency := if truthyS old.contact_frequency.get? then old.contact_frequency else dNew.contact_frequency
  , positives := if truthyL old.positives.get? then old.positives else dNew.positives
  , negatives := if truthyL old.negatives.get? then old.negatives else dNew.negatives
  , trust_level := if truthyS old.trust_level.get? then old.trust_level else dNew.trust_level
  , energy := if truthyS old.energy.get? then old.energy else dNew.energy }

/-- `strength_order.get(s, 3)` of the output sort. -/
def strengthRank (s : String) : Nat :=
  if s = "close" then 0 else if s = "warm" then 1 else if s = "cold" then 2 else 3

/-- Reads a key that `to_dict` always populates; the default is unreachable
for records produced by the export pipeline. -/
def Fld.getV : Fld α → α → α
  | .val a, _ => a
  | _, d => d

/-- Sort key of the exported connections:
`(strength_order.get(c['relationship_strength'], 3), c['name'])`. -/
def exportKey (d : ConnR) : Nat × String :=
  (strengthRank (d.relationship_strength.getV ""), d.name.getV "")

/-- Strict order on export keys, the insertion test of the stable sort. -/
def exportKeyLt (a b : ConnR) : Bool :=
  (exportKey a).1 < (exportKey b).1
    ∨ ((exportKey a).1 = (exportKey b).1 ∧ pyLt (exportKey a).2 (exportKey b).2)

/-- Core of `export_network` (the file I/O, stats and import-log metadata
aside): each connection of the current import batch is exported, with
manual enrichments taken from a same-id record of the existing snapshot,
and the result is stable-sorted by strength rank then name. The batch is
`self.connections` in dict insertion order; the parser maintains
`self.connections[conn.id] = conn`, so the values carry their own keys.
Records present only in `existing` are not visited. -/
def export_network (newConns : List Connection)
    (existing : List (Option String × ConnR)) : List ConnR :=
  pySort exportKeyLt (newConns.map (fun c =>
    match existing.lookup (some c.id) with
    | some old => preserveManual c.to_dict old
    | none => c.to_dict))

/-!
Derivation library, from `brain/human/analysis/network_intel.py`.
-/

/-- The `NetworkInsight` dataclass. `connections` holds the values of
`conn['id']` keys, which may be `None`. -/
structure NetworkInsight where
  type : String
  priority : String
  message : String
  connections : List (Option String)
  action : Option String := none
  deriving DecidableEq

/-- A loaded `network.yaml` snapshot. Only the `connections` key is ever
consulted by the embedded functions, so the other top-level keys (`stats`,
`version`, ...) are omitted. -/
structure Network where
  connections : Fld (List ConnR) := .missing
  deriving DecidableEq

/-- Models `for conn in network.get("connections", [])`: an absent key
iterates the default `[]`, a `None` value raises TypeError. -/
def pyIterConns (net : Network) : Except PyErr (List ConnR) :=
  match net.connections.getD [] with
  | none => .error .typeError
  | some l => .ok l

/-- Models `sorted(l, key := k, reverse := True)` for a boolean key:
CPython's stable sort in descending key order. -/
def pySortRevBool (key : α → Bool) (l : List α) : List α :=
  pySort (fun a b => key a && !key b) l

/-- Body of the `stale_relationships` loop for one connection: `none` when
the record contributes no insight. Evaluation order follows the source:
the staleness test, then `days_ago` (whose `strptime` can raise
ValueError), then the message's `conn['name']`, then `conn['id']`. -/
def stalePer (today : Date) (cutoff : String) (c : ConnR) :
    Except PyErr (Option NetworkInsight) :=
  let strength := c.relationship_strength.getD "cold"
  let last_message := c.last_message.get?
  let last_contact := c.last_contact.get?
  if strength = some "warm" ∨ strength = some "close" then
    let last_touch := pyOr last_contact last_message
    match last_touch with
    | some s =>
      if s ≠ "" ∧ pyLt s cutoff = true then
        match parseYmd s with
        | none => .error .valueError
        | some dt => do
          let days : Int := (rataDie today : Int) - (rataDie dt : Int)
          let nm ← c.name.item
          let msg := pyStr nm ++ " (" ++ pyStr (c.company.getD "Unknown") ++ ") - "
            ++ pyStr strength ++ " relationship, no contact in " ++ toString days ++ " days"
          let cid ← c.id.item
          .ok (some
            { type := "stale"
            , priority := if strength = some "close" then "high" else "medium"
            , message := msg
            , connections := [cid]
            , action := some ("Consider reaching out. Last topic: "
                ++ pyStr (c.notes.getD "N/A")) })
      else .ok none
    | none => .ok none
  else .ok none

/-- The connection loop of `stale_relationships`, in snapshot order. -/
def staleLoop (today : Date) (cutoff : String) :
    List ConnR → Except PyErr (List NetworkInsight)
  | [] => .ok []
  | c :: rest => do
    let i? ← stalePer today cutoff c
    let tail ← staleLoop today cutoff rest
    .ok (match i? with | some i => i :: tail | none => tail)

/-- `stale_relationships`: collect an insight per stale warm/close
connection and return them with the high-priority ones first
(`sorted(..., key := priority == "high", reverse := True)`). -/
def stale_relationships (today : Date) (network : Network)
    (threshold_days : Nat := 180) : Except PyErr (List NetworkInsight) := do
  let conns ← pyIterConns network
  let cutoff := formatYmd (dateSub today threshold_days)
  let insights ← staleLoop today cutoff conns
  .ok (pySortRevBool (fun i => i.priority == "high") insights)

/-- The default target-domain list of `network_gaps`. -/
def defaultTargets : List String :=
  ["distribution", "sales", "marketing", "fundraising",
   "technical", "product", "design", "operations"]

/-- Concatenation of every connection's `domains` tags in snapshot order;
a `None` domains value raises TypeError when iterated. -/
def allDomainTags (conns : List ConnR) : Except PyErr (List String) :=
  conns.foldlM
    (fun acc c =>
      match c.domains.getD [] with
      | none => .error PyErr.typeError
      | some l => .ok (acc ++ l))
    []

/-- `domain_counts[k] = domain_counts.get(k, 0) + 1` on an association-list
dict. -/
def bumpKey (k : String) : List (String × Nat) → List (String × Nat)
  | [] => [(k, 1)]
  | (k', n) :: rest =>
    if k' = k then (k', n + 1) :: rest else (k', n) :: bumpKey k rest

/-- The tag-counting dict built by the `network_gaps` loop. -/
def countsOf (tags : List String) : List (String × Nat) :=
  tags.foldl (fun m t => bumpKey t m) []

/-- Models `counts.get(k, 0)` on the association-list dict. -/
def dictGetNat (m : List (String × Nat)) (k : String) : Nat :=
  match m with
  | [] => 0
  | (k', n) :: rest => if k' = k then n else dictGetNat rest k

/-- The high-priority gap insight for a target domain with no tagged
connections. -/
def gapHigh (d : String) : NetworkInsight :=
  { type := "gap"
  , priority := "high"
  , message := "Network gap: No connections in '" ++ d ++ "'"
  , connections := []
  , action := some ("Consider building relationships in " ++ d) }

/-- The medium-priority thin-coverage insight for a target domain with
`count` tagged connections. -/
def gapMedium (d : String) (count : Nat) : NetworkInsight :=
  { type := "gap"
  , priority := "medium"
  , message := "Thin coverage: Only " ++ toString count ++ " connections in '" ++ d ++ "'"
  , connections := []
  , action := some ("Could strengthen " ++ d ++ " network") }

/-- `network_gaps`: count lowercased domain tags, then yield one gap or
thin-coverage insight per target domain in list order. -/
def network_gaps (net : Network) (target_domains : Option (List String) := none) :
    Except PyErr (List NetworkInsight) := do
  let conns ← pyIterConns net
  let tags ← allDomainTags conns
  let counts := countsOf (tags.map pyLower)
  let targets := target_domains.getD defaultTargets
  .ok (targets.filterMap (fun d =>
    let count := dictGetNat counts (pyLower d)
    if count = 0 then some (gapHigh d)
    else if count < 3 then some (gapMedium d count)
    else none))

/-- The `[e['id'] for e in l]` comprehension: KeyError on a record without
an `id` key. -/
def idsOfE (l : List ConnR) : Except PyErr (List (Option String)) :=
  l.mapM (fun c => c.id.item)

/-- The `', '.join(e['name'] for e in l)` operand list: KeyError on a
missing `name` key, TypeError when a name is `None`. -/
def namesOfE (l : List ConnR) : Except PyErr (List String) :=
  l.mapM (fun c => do
    match ← c.name.item with
    | some s => .ok s
    | none => .error PyErr.typeError)

/-- `energizing_connections`: one insight for the energizing group and one
for the draining group, each only when nonempty. -/
def energizing_connections (net : Network) : Except PyErr (List NetworkInsight) := do
  let conns ← pyIterConns net
  let energizing := conns.filter (fun c => c.energy.get? = some "energizing")
  let draining := conns.filter (fun c => c.energy.get? = some "draining")
  let l1 ← if energizing.isEmpty then pure [] else do
    let ids ← idsOfE energizing
    let names ← namesOfE (energizing.take 5)
    pure [{ type := "energizing"
          , priority := "medium"
          , message := "Energizing connections: " ++ toString energizing.length
              ++ " people who boost you"
          , connections := ids
          , action := some ("Reach out when you need energy: " ++ joinSep ", " names) }]
  let l2 ← if draining.isEmpty then pure [] else do
    let ids ← idsOfE draining
    pure [{ type := "draining"
          , priority := "low"
          , message := "Draining connections: " ++ toString draining.length
              ++ " people (be mindful of scheduling)"
          , connections := ids
          , action := some "Consider limiting exposure or having shorter meetings" }]
  .ok (l1 ++ l2)

/-- Body of the `watch_outs` loop for one connection. The filter clause
`for_connections and conn['id'] not in for_connections` only touches
`conn['id']` when the filter list is truthy. -/
def watchPer (for_connections : Option (List (Option String))) (c : ConnR) :
    Except PyErr (Option NetworkInsight) := do
  let skip ← match for_connections with
    | some l =>
      if l.isEmpty then pure false
      else do
        let cid ← c.id.item
        pure (decide (cid ∉ l))
    | none => pure false
  if skip then .ok none
  else
    let negatives := c.negatives.getD []
    if truthyL negatives then do
      let negs := negatives.getD []
      let nm ← c.name.item
      let msg := "Watch-out for " ++ pyStr nm ++ ": " ++ toString negs.length
        ++ " pattern(s) noted"
      let cid ← c.id.item
      .ok (some
        { type := "watch_out"
        , priority := "medium"
        , message := msg
        , connections := [cid]
        , action := some ("Remember: " ++ joinSep "; " (negs.take 2)) })
    else .ok none

/-- The connection loop of `watch_outs`. -/
def watchLoop (for_connections : Option (List (Option String))) :
    List ConnR → Except PyErr (List NetworkInsight)
  | [] => .ok []
  | c :: rest => do
    let i? ← watchPer for_connections c
    let tail ← watchLoop for_connections rest
    .ok (match i? with | some i => i :: tail | none => tail)

/-- `watch_outs`: surface connections with recorded negatives. -/
def watch_outs (net : Network)
    (for_connections : Option (List (Option String)) := none) :
    Except PyErr (List NetworkInsight) := do
  let conns ← pyIterConns net
  watchLoop for_connections conns

/-!
Pattern detection, from `brain/human/analysis/pattern_detect.py`.
-/

/-- The `Pattern` dataclass. Evidence entries may be `conn.get("name")`
values, hence `Option String`. -/
structure Pattern where
  type : String
  description : String
  evidence : List (Option String)
  suggestion : Option String := none
  deriving DecidableEq

/-- Distinct elements in first-occurrence order: the key iteration order of
a Python dict built by repeated `d[k] += 1` updates. -/
def firstSeenAux : List String → List String → List String
  | [], _ => []
  | t :: rest, seen =>
    if t ∈ seen then firstSeenAux rest seen else t :: firstSeenAux rest (t :: seen)

/-- Distinct elements of a list in first-occurrence order. -/
def firstSeen (l : List String) : List String :=
  firstSeenAux l []

/-- `blind_spot_detection`: high trust without documented positives,
year-old connections with no assessment at all, and echo-chamber domains
(share of all domain-tag occurrences above 40%). The domain-count dict is
its distinct raw tags in first-insertion order with their occurrence
counts; `c / total > 0.4` on floats is the rational test `5 * c > 2 *
total` (exact for all realistically-sized counts). -/
def blind_spot_detection (today : Date) (net : Network) :
    Except PyErr (List Pattern) := do
  let conns ← pyIterConns net
  let undocumented := conns.filterMap (fun c =>
    if c.trust_level.get? = some "high" ∧ ¬ truthyL (c.positives.getD [])
    then some c.name.get? else none)
  let p1 : List Pattern :=
    if undocumented.isEmpty then [] else
    [{ type := "undocumented_trust"
     , description := toString undocumented.length
         ++ " high-trust connections without documented reasons"
     , evidence := undocumented.take 5
     , suggestion := some "Why do you trust them? Making it explicit helps validate" }]
  let one_year_ago := formatYmd (dateSub today 365)
  let old_unassessed := conns.filterMap (fun c =>
    match c.connected_date.get? with
    | some cd =>
      if cd ≠ "" ∧ pyLt cd one_year_ago = true
          ∧ ¬ truthyS c.trust_level.get?
          ∧ ¬ truthyL (c.positives.getD []) ∧ ¬ truthyL (c.negatives.getD [])
      then some c.name.get? else none
    | none => none)
  let p2 : List Pattern :=
    if old_unassessed.isEmpty then [] else
    [{ type := "old_unassessed"
     , description := toString old_unassessed.length
         ++ " long-term connections without assessment"
     , evidence := old_unassessed.take 5
         ++ (if 5 < old_unassessed.length then [some "...and more"] else [])
     , suggestion := some "Do you actually know these people? Consider assessing or archiving" }]
  let tags ← allDomainTags conns
  let total := tags.length
  let dominant := (firstSeen tags).filterMap (fun d =>
    let cnt := tags.count d
    if 2 * total < 5 * cnt then some (d, cnt) else none)
  let p3 : List Pattern :=
    if total = 0 ∨ dominant.isEmpty then [] else
    [{ type := "potential_echo_chamber"
     , description := "Your network may be concentrated in few domains"
     , evidence := dominant.map (fun dc =>
         some (dc.1 ++ ": " ++ toString dc.2 ++ "/" ++ toString total
           ++ " (" ++ toString (roundHE (dc.2 * 100) total) ++ "%)"))
     , suggestion := some "Diverse perspectives come from diverse networks" }]
  .ok (p1 ++ p2 ++ p3)

/-- A cooling entry of `relationship_trajectory`. -/
structure CoolEntry where
  name : Option String
  strength : Option String
  last : String
  deriving DecidableEq

/-- A warming entry of `relationship_trajectory`. -/
structure WarmEntry where
  name : Option String
  messages : Nat
  last : String
  deriving DecidableEq

/-- The cooling test of `relationship_trajectory` for one connection:
was warm/close, has a truthy `last_message`, and that message predates the
cutoff. `last_contact` plays no part. -/
def coolEntry? (cutoff : String) (c : ConnR) : Option CoolEntry :=
  let strength := c.relationship_strength.getD "cold"
  match c.last_message.get? with
  | some s =>
    if (strength = some "warm" ∨ strength = some "close") ∧ s ≠ "" ∧ pyLt s cutoff = true then
      some { name := c.name.getD "Unknown", strength := strength, last := s }
    else none
  | none => none

/-- The warming test of `relationship_trajectory` for one connection:
cold, a truthy recent `last_message`, and `message_count >= 2` — the last
comparison raises TypeError when `message_count` is `None`. -/
def warmEntryE (cutoff : String) (c : ConnR) : Except PyErr (Option WarmEntry) :=
  let strength := c.relationship_strength.getD "cold"
  match c.last_message.get? with
  | some s =>
    if strength = some "cold" ∧ s ≠ "" then
      if pyLt s cutoff = false then
        match c.message_count.getD 0 with
        | none => .error PyErr.typeError
        | some n =>
          .ok (if 2 ≤ n then
            some { name := c.name.getD "Unknown", messages := n, last := s }
          else none)
      else .ok none
    else .ok none
  | none => .ok none

/-- The connection loop of `relationship_trajectory`, accumulating the
cooling and warming lists in snapshot order. -/
def trajLoop (cutoff : String) :
    List ConnR → Except PyErr (List CoolEntry × List WarmEntry)
  | [] => .ok ([], [])
  | c :: rest => do
    let w? ← warmEntryE cutoff c
    let (cs, ws) ← trajLoop cutoff rest
    .ok ((coolEntry? cutoff c).elim cs (· :: cs), w?.elim ws (· :: ws))

/-- `relationship_trajectory`: a cooling pattern and a warming pattern,
each present exactly when its entry list is nonempty. -/
def relationship_trajectory (today : Date) (net : Network)
    (lookback_days : Nat := 90) : Except PyErr (List Pattern) := do
  let conns ← pyIterConns net
  let cutoff := formatYmd (dateSub today lookback_days)
  let (cooling, warming) ← trajLoop cutoff conns
  let p1 : List Pattern :=
    if cooling.isEmpty then [] else
    [{ type := "cooling"
     , description := toString cooling.length ++ " relationships cooling off"
     , evidence := (cooling.take 5).map (fun e =>
         some (pyStr e.name ++ " (" ++ pyStr e.strength ++ ") - last contact " ++ e.last))
     , suggestion := some "Consider re-engaging with these contacts" }]
  let p2 : List Pattern :=
    if warming.isEmpty then [] else
    [{ type := "warming"
     , description := toString warming.length ++ " relationships warming up"
     , evidence := (warming.take 5).map (fun e =>
         some (pyStr e.name ++ " - " ++ toString e.messages ++ " messages, last " ++ e.last))
     , suggestion := some "Continue building these relationships" }]
  .ok (p1 ++ p2)

/-!
Goal alignment, from `brain/human/analysis/goal_alignment.py`.
-/

/-- The `AlignmentInsight` dataclass; `description`/`stated`/`actual` can
receive `None` from `m.get(...)`. -/
structure AlignmentInsight where
  type : String
  description : Option String
  stated : Option String
  actual : Option String
  suggestion : Option String := none
  deriving DecidableEq

/-- One record of `goals["delta"]["misalignments"]`. -/
structure Mis where
  gap : Fld String := .missing
  stated : Fld String := .missing
  actual : Fld String := .missing
  possible_reasons : Fld (List String) := .missing
  deriving DecidableEq

/-- The `goals["delta"]` sub-dict. -/
structure GDelta where
  misalignments : Fld (List Mis) := .missing
  deriving DecidableEq

/-- The `goals["revealed"]` sub-dict. -/
structure GRevealed where
  avoided_actions : Fld (List String) := .missing
  deriving DecidableEq

/-- A loaded `goals.yaml` dict. `stated` records only whether the key is
present: `stated_vs_revealed` uses it solely through the dict's
truthiness. -/
structure Goals where
  delta : Fld GDelta := .missing
  revealed : Fld GRevealed := .missing
  stated : Fld Unit := .missing
  deriving DecidableEq

/-- Python truthiness of the goals dict: nonempty iff some key is present. -/
def Goals.truthy (g : Goals) : Bool :=
  decide (g.delta ≠ .missing ∨ g.revealed ≠ .missing ∨ g.stated ≠ .missing)

/-- The misalignment insight for one record of
`goals["delta"]["misalignments"]`; joining a `None` reasons value raises
TypeError, and an empty join falls back to `None`. -/
def misInsightE (m : Mis) : Except PyErr AlignmentInsight := do
  let sugg ← match m.possible_reasons.getD [] with
    | none => .error PyErr.typeError
    | some rs => .ok (let s := joinSep ", " rs; if s = "" then none else some s)
  .ok { type := "misaligned"
      , description := m.gap.getD "Unspecified gap"
      , stated := m.stated.getD ""
      , actual := m.actual.getD ""
      , suggestion := sugg }

/-- `stated_vs_revealed`: every explicit misalignment record, an avoidance
insight when avoided actions exist, and a single `no_data` advisory when
both the insights and the goals dict are empty. `goals.get("delta", {})`
returning `None` makes the following `.get` raise AttributeError. -/
def stated_vs_revealed (goals : Goals) : Except PyErr (List AlignmentInsight) := do
  let delta ← match goals.delta with
    | .missing => .ok ({} : GDelta)
    | .null => .error PyErr.attributeError
    | .val d => .ok d
  let mis ← match delta.misalignments.getD [] with
    | none => .error PyErr.typeError
    | some l => .ok l
  let insights ← mis.mapM misInsightE
  let revealed ← match goals.revealed with
    | .missing => .ok ({} : GRevealed)
    | .null => .error PyErr.attributeError
    | .val r => .ok r
  let avoided := revealed.avoided_actions.getD []
  let insights := insights ++
    (if truthyL avoided then
      [{ type := "avoidance"
       , description := some "Actions you keep avoiding despite saying they're important"
       , stated := some "(various)"
       , actual := some (joinSep ", " ((avoided.getD []).take 5))
       , suggestion := some "Consider why these are being avoided" }]
     else [])
  .ok (if insights.isEmpty ∧ ¬ goals.truthy then
      [{ type := "no_data"
       , description := some "Goals not populated"
       , stated := some "Unknown"
       , actual := some "Unknown"
       , suggestion := some "Populate goals.yaml to enable alignment analysis" }]
    else insights)

/-!
Aggregation layer, from `brain/human/analysis/run_all.py`.
-/

/-- One `generate_action_items` entry. -/
structure Action where
  priority : String
  action : String
  reason : String
  deriving DecidableEq

/-- The single action returned on an unpopulated network. -/
def importAction : Action :=
  { priority := "high"
  , action := "Import LinkedIn data to populate network"
  , reason := "Network intelligence requires connection data" }

/-- The stale stage: an action for each high-priority insight among the
first three. -/
def staleActions (stale : List NetworkInsight) : List Action :=
  (stale.take 3).filterMap (fun s =>
    if s.priority = "high" then
      some { priority := "high"
           , action := "Reconnect with " ++ (match s.connections.head? with
               | some cid => pyStr cid
               | none => "stale contact")
           , reason := s.message }
    else none)

/-- The gap stage: a medium-priority action for each high-priority insight
among the first two gap insights. -/
def gapActions (gaps : List NetworkInsight) : List Action :=
  (gaps.take 2).filterMap (fun g =>
    if g.priority = "high" then
      some { priority := "medium"
           , action := "Build network in "
               ++ pyStrip '"' (((pySplitOn g.message ": ").getLast?).getD "")
           , reason := "Gap in important domain" }
    else none)

/-- The draining stage: one low-priority action per draining insight with
more than three flagged connections. -/
def drainingActions (energy : List NetworkInsight) : List Action :=
  energy.filterMap (fun e =>
    if e.type = "draining" ∧ 3 < e.connections.length then
      some { priority := "low"
           , action := "Review draining relationships"
           , reason := toString e.connections.length ++ " connections flagged as draining" }
    else none)

/-- The blind-spot stage: a medium-priority action for each of the first
two patterns whose kind mentions "undocumented" or "echo". -/
def blindActions (blind : List Pattern) : List Action :=
  (blind.take 2).filterMap (fun b =>
    if strContains b.type "undocumented" || strContains b.type "echo" then
      some { priority := "medium"
           , action := (match b.suggestion with
               | some s => if s ≠ "" then s else b.description
               | none => b.description)
           , reason := b.description }
    else none)

/-- The goal-alignment stage: a high-priority action per misaligned
insight; slicing a `None` description raises TypeError. -/
def alignActionsE (al : List AlignmentInsight) : Except PyErr (List Action) :=
  (al.filter (fun a => a.type = "misaligned")).mapM (fun a => do
    let d ← match a.description with
      | none => .error PyErr.typeError
      | some s => .ok s
    .ok { priority := "high"
        , action := "Address goal misalignment: " ++ strTake d 50
        , reason := "Stated: " ++ pyStr a.stated ++ ", Actual: " ++ pyStr a.actual })

/-- `priority_order.get(p, 3)`. -/
def priorityRank (p : String) : Nat :=
  if p = "high" then 0 else if p = "medium" then 1 else if p = "low" then 2 else 3

/-- `generate_action_items`: short-circuit to the import action on a falsy
connection list, otherwise run the five stages in source order,
stable-sort by priority rank and keep the first ten. The network and goals
dicts are the values `load_network()` / `load_goals()` would return. -/
def generate_action_items (today : Date) (net : Network) (goals : Goals) :
    Except PyErr (List Action) := do
  let conns := net.connections.getD []
  if ¬ truthyL conns then
    .ok [importAction]
  else do
    let stale ← stale_relationships today net
    let gaps ← network_gaps net
    let energy ← energizing_connections net
    let blind ← blind_spot_detection today net
    let align ← stated_vs_revealed goals
    let a5 ← alignActionsE align
    let actions := staleActions stale ++ gapActions gaps ++ drainingActions energy
      ++ blindActions blind ++ a5
    .ok ((pySort (fun x y => priorityRank x.priority < priorityRank y.priority) actions).take 10)

/-!
Loaders: `load_network` of the analysis modules and the SDK's
`load_yaml` / `load_network` from `brain/sdk/python/brain/loaders.py`.
The file system is abstracted as `Option (Option Network)`: `none` is a
missing file, `some none` a file whose YAML parse is falsy (empty file or
empty mapping), `some (some n)` a truthy parsed snapshot.
-/

/-- `network_intel.load_network` (and its twins in `pattern_detect` and
`goal_alignment`): a missing file or falsy parse yields the empty
snapshot. -/
def intel_load_network (file : Option (Option Network)) : Network :=
  match file with
  | none => { connections := .val [] }
  | some none => { connections := .val [] }
  | some (some n) => n

/-- SDK `load_yaml`: a missing file raises FileNotFoundError. -/
def load_yaml (file : Option (Option Network)) : Except PyErr (Option Network) :=
  match file with
  | none => .error .fileNotFoundError
  | some v => .ok v

/-- SDK `load_network`: `load_yaml('human/network.yaml') or {'connections': []}`. -/
def sdk_load_network (file : Option (Option Network)) : Except PyErr Network := do
  let v ← load_yaml file
  .ok (match v with
    | some n => n
    | none => { connections := .val [] })

/-!
Spec-side characterizations (stated in the spec's vocabulary, to be proved
equal to the code's behavior) and concrete inputs for the claim theorems.
-/

/-- The reference date of the staleness rule, in the spec's words:
`last_contact` when present (truthy), else `last_message`. -/
def staleRefDate (c : ConnR) : Option String :=
  pyOr c.last_contact.get? c.last_message.get?

/-- The spec's staleness test: relationship strength in {warm, close} and a
reference date that exists and is earlier (in the ISO-string order the
system uses for dates) than the cutoff. -/
def staleSelects (cutoff : String) (c : ConnR) : Bool :=
  decide (c.relationship_strength.getD "cold" = some "warm"
    ∨ c.relationship_strength.getD "cold" = some "close")
  && (match staleRefDate c with
      | some s => decide (s ≠ "" ∧ pyLt s cutoff = true)
      | none => false)

/-- The insight a selected connection produces (total counterpart of the
loop body; the `getD` defaults are never reached on records the loop
accepted). -/
def staleInsightOf (today : Date) (c : ConnR) : NetworkInsight :=
  let strength := c.relationship_strength.getD "cold"
  let s := (staleRefDate c).getD ""
  let days : Int := (rataDie today : Int) - (rataDie ((parseYmd s).getD ⟨1, 1, 1⟩) : Int)
  { type := "stale"
  , priority := if strength = some "close" then "high" else "medium"
  , message := pyStr c.name.get? ++ " (" ++ pyStr (c.company.getD "Unknown") ++ ") - "
      ++ pyStr strength ++ " relationship, no contact in " ++ toString days ++ " days"
  , connections := [c.id.get?]
  , action := some ("Consider reaching out. Last topic: " ++ pyStr (c.notes.getD "N/A")) }

/-- The insight a negatives-carrying connection produces in `watch_outs`
(total counterpart of the loop body; meaningful when `id` and `name` are
present). -/
def watchInsightOf (c : ConnR) : NetworkInsight :=
  let negs := (c.negatives.getD []).getD []
  { type := "watch_out"
  , priority := "medium"
  , message := "Watch-out for " ++ pyStr c.name.get? ++ ": " ++ toString negs.length
      ++ " pattern(s) noted"
  , connections := [c.id.get?]
  , action := some ("Remember: " ++ joinSep "; " (negs.take 2)) }

/-- The quantity claim C7 speaks about: the number of connections at least
one of whose domain tags case-insensitively equals `d`. -/
def connsTaggedCount (conns : List ConnR) (d : String) : Nat :=
  conns.countP (fun c => ((c.domains.get?.getD []).map pyLower).contains (pyLower d))

/-- C1 counterexample input: a previously exported and enriched record. -/
def c1Old : ConnR :=
  { id := .val "conn.alice-smith", name := .val "Alice Smith"
  , trust_level := .val "high" }

/-- C2 counterexample input: a stale warm record whose `name` and `id` keys
were removed by hand editing. -/
def c2Conn : ConnR :=
  { relationship_strength := .val "warm", last_contact := .val "2020-01-01" }

/-- C2 counterexample snapshot. -/
def c2Net : Network := { connections := .val [c2Conn] }

/-- C2 witness input: a well-formed stale record with recorded negatives
(it triggers both the stale and the watch-out insight). -/
def c2WConn : ConnR :=
  { id := .val "conn.bob-ray", name := .val "Bob Ray"
  , relationship_strength := .val "close", last_contact := .val "2020-01-01"
  , negatives := .val ["runs late"] }

/-- C2 witness input: a keyless cold record that triggers no insight — the
code never touches its absent `id`/`name` keys, so it must not make the
functions raise. -/
def c2WConn2 : ConnR :=
  { relationship_strength := .val "cold", last_contact := .val "2020-01-01" }

/-- C2 witness snapshot: one triggering well-formed record and one
non-triggering keyless record. -/
def c2WNet : Network := { connections := .val [c2WConn, c2WConn2] }

/-- C3 witness messages: three messages from Ann Lee. -/
def c3Messages : List (String × List Msg) :=
  [("Ann Lee", [⟨some "2025-01-01"⟩, ⟨some "2025-02-01"⟩, ⟨some "2025-03-01"⟩])]

/-- C3 witness batch: one matched and one unmatched connection, both fresh
from `parse_connections` (strength `"cold"`). -/
def c3Conns : List Connection :=
  [ { id := "conn.ann-lee", name := "Ann Lee", first_name := "Ann", last_name := "Lee" }
  , { id := "conn.cy-doe", name := "Cy Doe", first_name := "Cy", last_name := "Doe" } ]

/-- C4 witness import record: a fresh parse of Alice with no manual data. -/
def c4New : Connection :=
  { id := "conn.alice-smith", name := "Alice Smith"
  , first_name := "Alice", last_name := "Smith"
  , message_count := 12, relationship_strength := "close" }

/-- C4 witness old record: the previously enriched Alice. -/
def c4Old : ConnR :=
  { id := .val "conn.alice-smith", name := .val "Alice Smith"
  , relationship_strength := .val "cold", message_count := .val 0
  , trust_level := .val "high", notes := .val "met at conf" }

/-- C4 witness existing dict. -/
def c4Existing : List (Option String × ConnR) := [(some "conn.alice-smith", c4Old)]

/-- C5 witness connections: a stale warm record, a stale close record and a
fresh warm record. -/
def c5Conns : List ConnR :=
  [ { id := .val "conn.a", name := .val "A", relationship_strength := .val "warm"
    , last_contact := .val "2020-01-01" }
  , { id := .val "conn.b", name := .val "B", relationship_strength := .val "close"
    , last_message := .val "2019-05-05" }
  , { id := .val "conn.c", name := .val "C", relationship_strength := .val "warm"
    , last_contact := .val "2026-10-01" } ]

/-- C5 witness snapshot. -/
def c5Net : Network := { connections := .val c5Conns }

/-- C5 witness output, by evaluation. -/
def c5Out : List NetworkInsight :=
  match stale_relationships ⟨2026, 10, 12⟩ c5Net 180 with
  | .ok l => l
  | .error _ => []

/-- C6 witness snapshot: zero connections. -/
def c6Net : Network := { connections := .val [] }

/-- C6 witness goals dict. -/
def c6Goals : Goals := {}

/-- C7 counterexample connection: one connection carrying the same domain
tag three times. -/
def c7Conn : ConnR :=
  { id := .val "conn.x", name := .val "X"
  , domains := .val ["sales", "sales", "sales"] }

/-- C7 counterexample snapshot. -/
def c7Net : Network := { connections := .val [c7Conn] }

/-- C7 witness connections: two connections tagged `design` (one
capitalized), none tagged `fundraising`. -/
def c7WConns : List ConnR :=
  [ { id := .val "conn.p", name := .val "P", domains := .val ["Design"] }
  , { id := .val "conn.q", name := .val "Q", domains := .val ["design"] } ]

/-- C7 witness snapshot. -/
def c7WNet : Network := { connections := .val c7WConns }

/-- C7 witness output, by evaluation. -/
def c7WOut : List NetworkInsight :=
  match network_gaps c7WNet (some ["design", "fundraising"]) with
  | .ok l => l
  | .error _ => []

/-- C9 witness gap list: two medium thin-coverage insights followed by a
high-priority gap in third position. -/
def c9Gaps : List NetworkInsight :=
  [gapMedium "distribution" 1, gapMedium "sales" 2, gapHigh "marketing"]

/-- C10 witness connection: recent manual `last_contact`, old
`last_message`. -/
def c10Conn : ConnR :=
  { id := .val "conn.z", name := .val "Z", relationship_strength := .val "warm"
  , last_message := .val "2020-01-01", last_contact := .val "2026-10-01" }

/-- C10 witness snapshot. -/
def c10Net : Network := { connections := .val [c10Conn] }

/-- C10 witness output, by evaluation. -/
def c10Ps : List Pattern :=
  match relationship_trajectory ⟨2026, 10, 12⟩ c10Net 90 with
  | .ok l => l
  | .error _ => []

/-!
Supporting lemmas about the Python-model primitives.
-/

theorem pyInsert_perm (lt : α → α → Bool) (a : α) (l : List α) :
    (pyInsert lt a l).Perm (a :: l) := by
  induction l with
  | nil => simp [pyInsert]
  | cons b t ih =>
    simp only [pyInsert]
    split
    · exact List.Perm.refl _
    · exact (ih.cons b).trans (List.Perm.swap a b t)

theorem pySort_foldl_perm (lt : α → α → Bool) (l : List α) :
    ∀ acc : List α,
      (l.foldl (fun acc a => pyInsert lt a acc) acc).Perm (acc ++ l) := by
  induction l with
  | nil => intro acc; simp
  | cons a t ih =>
    intro acc
    simp only [List.foldl_cons]
    refine (ih (pyInsert lt a acc)).trans ?_
    refine (((pyInsert_perm lt a acc).append_right t).trans ?_)
    exact (List.perm_middle).symm

theorem pySort_perm (lt : α → α → Bool) (l : List α) :
    (pySort lt l).Perm l := by
  simpa using pySort_foldl_perm lt l []

theorem pyInsert_key_true (key : α → Bool) (a : α) (ha : key a = true) :
    ∀ (t f : List α), (∀ x ∈ t, key x = true) → (∀ x ∈ f, key x = false) →
      pyInsert (fun a b => key a && !key b) a (t ++ f) = (t ++ [a]) ++ f := by
  intro t
  induction t with
  | nil =>
    intro f _ hF
    cases f with
    | nil => rfl
    | cons x xs => simp [pyInsert, ha, hF x (by simp)]
  | cons x xs ih =>
    intro f hT hF
    have hx : key x = true := hT x (by simp)
    simp [pyInsert, ha, hx, ih f (fun y hy => hT y (by simp [hy])) hF]

theorem pyInsert_key_false (key : α → Bool) (a : α) (ha : key a = false)
    (l : List α) :
    pyInsert (fun a b => key a && !key b) a l = l ++ [a] := by
  induction l with
  | nil => rfl
  | cons b t ih => simp [pyInsert, ha, ih]

theorem pySortRevBool_foldl (key : α → Bool) :
    ∀ (l t f : List α), (∀ x ∈ t, key x = true) → (∀ x ∈ f, key x = false) →
      l.foldl (fun acc a => pyInsert (fun a b => key a && !key b) a acc) (t ++ f)
        = (t ++ l.filter key) ++ (f ++ l.filter (fun a => !key a)) := by
  intro l
  induction l with
  | nil => intro t f _ _; simp
  | cons a rest ih =>
    intro t f hT hF
    rw [List.foldl_cons]
    by_cases ha : key a = true
    · rw [pyInsert_key_true key a ha t f hT hF,
        ih (t ++ [a]) f
          (by intro x hx; rcases List.mem_append.1 hx with hx | hx
              · exact hT x hx
              · simp at hx; simpa [hx] using ha)
          hF]
      simp [List.filter_cons, ha]
    · have ha' : key a = false := by simpa using ha
      have : pyInsert (fun a b => key a && !key b) a (t ++ f) = t ++ (f ++ [a]) := by
        rw [pyInsert_key_false key a ha']
        simp
      rw [this,
        ih t (f ++ [a]) hT
          (by intro x hx; rcases List.mem_append.1 hx with hx | hx
              · exact hF x hx
              · simp at hx; simpa [hx] using ha')]
      simp [List.filter_cons, ha']

theorem pySortRevBool_eq (key : α → Bool) (l : List α) :
    pySortRevBool key l = l.filter key ++ l.filter (fun a => !key a) := by
  have h := pySortRevBool_foldl key l [] [] (by simp) (by simp)
  simpa [pySortRevBool, pySort] using h

theorem bumpKey_get (k t : String) (m : List (String × Nat)) :
    dictGetNat (bumpKey t m) k = dictGetNat m k + (if t = k then 1 else 0) := by
  induction m with
  | nil => by_cases h : t = k <;> simp [bumpKey, dictGetNat, h]
  | cons p rest ih =>
    obtain ⟨k', n⟩ := p
    by_cases h1 : k' = t
    · subst h1
      by_cases h2 : k' = k
      · subst h2
        simp [bumpKey, dictGetNat]
      · have h3 : ¬ k' = k := h2
        simp [bumpKey, dictGetNat, h3]
    · by_cases h2 : k' = k
      · subst h2
        have h3 : ¬ t = k' := fun h => h1 h.symm
        simp [bumpKey, dictGetNat, h1, h3]
      · simp [bumpKey, dictGetNat, h1, h2, ih]

theorem countsOf_foldl (k : String) :
    ∀ (tags : List String) (m : List (String × Nat)),
      dictGetNat (tags.foldl (fun m t => bumpKey t m) m) k
        = dictGetNat m k + tags.count k := by
  intro tags
  induction tags with
  | nil => intro m; simp
  | cons t ts ih =>
    intro m
    rw [List.foldl_cons, ih, bumpKey_get]
    by_cases h : t = k
    · simp [List.count_cons, h]
      omega
    · simp [List.count_cons, h]

theorem countsOf_get (tags : List String) (k : String) :
    dictGetNat (countsOf tags) k = tags.count k := by
  simpa [countsOf, dictGetNat] using countsOf_foldl k tags []

theorem Fld.item_ok {α : Type} {f : Fld α} {v : Option α}
    (h : f.item = .ok v) : v = f.get? := by
  cases f with
  | missing => simp [Fld.item] at h
  | null =>
    simp [Fld.item] at h
    simp [Fld.get?, ← h]
  | val a =>
    simp [Fld.item] at h
    simp [Fld.get?, ← h]

theorem exceptBind_ok (a : α) (f : α → Except PyErr β) :
    ((Except.ok a : Except PyErr α) >>= f) = f a := rfl

theorem exceptBind_err (e : PyErr) (f : α → Except PyErr β) :
    ((Except.error e : Except PyErr α) >>= f) = .error e := rfl

theorem stalePer_ok (today : Date) (cutoff : String) (c : ConnR)
    (v : Option NetworkInsight) (h : stalePer today cutoff c = .ok v) :
    v = if staleSelects cutoff c then some (staleInsightOf today c) else none := by
  simp only [stalePer] at h
  by_cases h1 : c.relationship_strength.getD "cold" = some "warm"
      ∨ c.relationship_strength.getD "cold" = some "close"
  · rw [if_pos h1] at h
    split at h
    next s heq =>
      have href : staleRefDate c = some s := heq
      split at h
      next h2 =>
        split at h
        next hp => exact Except.noConfusion h
        next dt hp =>
          cases hn : c.name.item with
          | error e =>
            rw [hn, exceptBind_err] at h
            exact Except.noConfusion h
          | ok nm =>
            rw [hn, exceptBind_ok] at h
            cases hid : c.id.item with
            | error e =>
              rw [hid, exceptBind_err] at h
              exact Except.noConfusion h
            | ok cid =>
              rw [hid, exceptBind_ok] at h
              simp only [Except.ok.injEq] at h
              have hsel : staleSelects cutoff c = true := by
                simp [staleSelects, href, h1, h2]
              rw [if_pos hsel, ← h]
              simp [staleInsightOf, href, hp, Fld.item_ok hn, Fld.item_ok hid]
      next h2 =>
        simp only [Except.ok.injEq] at h
        have hsel : staleSelects cutoff c = false := by
          simp only [staleSelects, href, decide_eq_false h2, Bool.and_false]
        rw [if_neg (by simp [hsel]), ← h]
    next heq =>
      have href : staleRefDate c = none := heq
      simp only [Except.ok.injEq] at h
      have hsel : staleSelects cutoff c = false := by
        simp only [staleSelects, href, Bool.and_false]
      rw [if_neg (by simp [hsel]), ← h]
  · rw [if_neg h1] at h
    simp only [Except.ok.injEq] at h
    have hsel : staleSelects cutoff c = false := by
      simp only [staleSelects, decide_eq_false h1, Bool.false_and]
    rw [if_neg (by simp [hsel]), ← h]

theorem staleLoop_ok (today : Date) (cutoff : String) :
    ∀ (conns : List ConnR) (xs : List NetworkInsight),
      staleLoop today cutoff conns = .ok xs →
        xs = (conns.filter (staleSelects cutoff)).map (staleInsightOf today) := by
  intro conns
  induction conns with
  | nil =>
    intro xs h
    simp only [staleLoop, Except.ok.injEq] at h
    simp [← h]
  | cons c rest ih =>
    intro xs h
    simp only [staleLoop] at h
    cases hp : stalePer today cutoff c with
    | error e =>
      rw [hp, exceptBind_err] at h
      exact Except.noConfusion h
    | ok v =>
      rw [hp, exceptBind_ok] at h
      cases hl : staleLoop today cutoff rest with
      | error e =>
        rw [hl, exceptBind_err] at h
        exact Except.noConfusion h
      | ok tail =>
        rw [hl, exceptBind_ok] at h
        have hv := stalePer_ok today cutoff c v hp
        by_cases hs : staleSelects cutoff c = true
        · rw [if_pos hs] at hv
          subst hv
          have h' : staleInsightOf today c :: tail = xs := by
            simpa using h
          rw [← h']
          simp [List.filter_cons, hs, ih tail hl]
        · have hs' : staleSelects cutoff c = false := by simpa using hs
          rw [if_neg (by simp [hs'])] at hv
          subst hv
          have h' : tail = xs := by simpa using h
          rw [← h']
          simp [List.filter_cons, hs', ih tail hl]

theorem Fld.item_isOk {α : Type} (f : Fld α) (h : f ≠ .missing) :
    f.item = .ok f.get? := by
  cases f with
  | missing => exact absurd rfl h
  | null => rfl
  | val a => rfl

theorem exceptPure (a : α) : (pure a : Except PyErr α) = .ok a := rfl

theorem stalePer_total (today : Date) (cutoff : String) (c : ConnR)
    (hcond : staleSelects cutoff c = true →
      c.id ≠ Fld.missing ∧ c.name ≠ Fld.missing
        ∧ (parseYmd ((staleRefDate c).getD "")).isSome) :
    stalePer today cutoff c
      = .ok (if staleSelects cutoff c then some (staleInsightOf today c) else none) := by
  simp only [stalePer]
  split
  next h1 =>
    split
    next s heq =>
      have href : staleRefDate c = some s := heq
      split
      next h2 =>
        have hsel : staleSelects cutoff c = true := by
          simp only [staleSelects, href, Bool.and_eq_true, decide_eq_true_eq]
          exact ⟨h1, h2⟩
        obtain ⟨hid, hname, hdate⟩ := hcond hsel
        have hps : (parseYmd s).isSome := by
          rw [href] at hdate
          simpa using hdate
        split
        next hp => rw [hp] at hps; simp at hps
        next dt hp =>
          rw [Fld.item_isOk c.name hname, exceptBind_ok,
            Fld.item_isOk c.id hid, exceptBind_ok, if_pos hsel]
          simp [staleInsightOf, href, hp]
      next h2 =>
        have hsel : staleSelects cutoff c = false := by
          simp only [staleSelects, href, decide_eq_false h2, Bool.and_false]
        rw [if_neg (by simp [hsel])]
    next heq =>
      have href : staleRefDate c = none := heq
      have hsel : staleSelects cutoff c = false := by
        simp only [staleSelects, href, Bool.and_false]
      rw [if_neg (by simp [hsel])]
  next h1 =>
    have hsel : staleSelects cutoff c = false := by
      simp only [staleSelects, decide_eq_false h1, Bool.false_and]
    rw [if_neg (by simp [hsel])]

theorem staleLoop_total (today : Date) (cutoff : String) :
    ∀ (conns : List ConnR),
      (∀ c ∈ conns, staleSelects cutoff c = true →
          c.id ≠ Fld.missing ∧ c.name ≠ Fld.missing
            ∧ (parseYmd ((staleRefDate c).getD "")).isSome) →
      ∃ xs, staleLoop today cutoff conns = .ok xs := by
  intro conns
  induction conns with
  | nil => intro _; exact ⟨[], rfl⟩
  | cons c rest ih =>
    intro hconds
    obtain ⟨xs, hxs⟩ := ih (fun x hx => hconds x (by simp [hx]))
    exact ⟨_, by
      simp only [staleLoop]
      rw [stalePer_total today cutoff c (hconds c (by simp)),
        exceptBind_ok, hxs, exceptBind_ok]⟩

theorem watchPer_total (c : ConnR)
    (hcond : truthyL (c.negatives.getD []) = true →
      c.id ≠ Fld.missing ∧ c.name ≠ Fld.missing) :
    watchPer none c
      = .ok (if truthyL (c.negatives.getD []) then some (watchInsightOf c) else none) := by
  simp only [watchPer, exceptPure, exceptBind_ok]
  by_cases ht : truthyL (c.negatives.getD []) = true
  · obtain ⟨hid, hname⟩ := hcond ht
    rw [if_neg (by simp), if_pos ht,
      Fld.item_isOk c.name hname, exceptBind_ok,
      Fld.item_isOk c.id hid, exceptBind_ok, if_pos ht]
    simp [watchInsightOf]
  · have ht' : truthyL (c.negatives.getD []) = false := by simpa using ht
    rw [if_neg (by simp), if_neg (by simp [ht']), if_neg (by simp [ht'])]

theorem watchLoop_total :
    ∀ (conns : List ConnR),
      (∀ c ∈ conns, truthyL (c.negatives.getD []) = true →
          c.id ≠ Fld.missing ∧ c.name ≠ Fld.missing) →
      ∃ xs, watchLoop none conns = .ok xs := by
  intro conns
  induction conns with
  | nil => intro _; exact ⟨[], rfl⟩
  | cons c rest ih =>
    intro hconds
    obtain ⟨xs, hxs⟩ := ih (fun x hx => hconds x (by simp [hx]))
    exact ⟨_, by
      simp only [watchLoop]
      rw [watchPer_total c (hconds c (by simp)),
        exceptBind_ok, hxs, exceptBind_ok]⟩

theorem trajLoop_cooling (cutoff : String) :
    ∀ (conns : List ConnR) (cs : List CoolEntry) (ws : List WarmEntry),
      trajLoop cutoff conns = .ok (cs, ws) →
        cs = conns.filterMap (coolEntry? cutoff) := by
  intro conns
  induction conns with
  | nil =>
    intro cs ws h
    simp only [trajLoop, Except.ok.injEq, Prod.mk.injEq] at h
    simp [← h.1]
  | cons c rest ih =>
    intro cs ws h
    simp only [trajLoop] at h
    cases hw : warmEntryE cutoff c with
    | error e =>
      rw [hw, exceptBind_err] at h
      exact Except.noConfusion h
    | ok w =>
      rw [hw, exceptBind_ok] at h
      cases hl : trajLoop cutoff rest with
      | error e =>
        rw [hl, exceptBind_err] at h
        exact Except.noConfusion h
      | ok pr =>
        obtain ⟨cs', ws'⟩ := pr
        rw [hl, exceptBind_ok] at h
        simp only [Except.ok.injEq, Prod.mk.injEq] at h
        cases hco : coolEntry? cutoff c with
        | none =>
          have h1 : cs' = cs := by
            have := h.1
            rw [hco] at this
            simpa [Option.elim] using this
          rw [← h1]
          simp [List.filterMap_cons, hco, ih cs' ws' hl]
        | some e =>
          have h1 : e :: cs' = cs := by
            have := h.1
            rw [hco] at this
            simpa [Option.elim] using this
          rw [← h1]
          simp [List.filterMap_cons, hco, ih cs' ws' hl]

/-!
Claim theorems.
-/

/-- C1, counterexample: the export pipeline iterates only the new import
batch. With an empty batch and an existing snapshot holding the enriched
record `conn.alice-smith`, the merged output is empty: the old-only
identifier is dropped, so the merge is not additive as claimed. -/
theorem c1_counterexample :
    existingOf [c1Old] = .ok [(some "conn.alice-smith", c1Old)]
    ∧ (some "conn.alice-smith") ∈ [(some "conn.alice-smith", c1Old)].map Prod.fst
    ∧ export_network [] [(some "conn.alice-smith", c1Old)] = [] :=
  ⟨rfl, by simp, rfl⟩

/-- C1, amended: the identifiers of the merged output are exactly (a
permutation of) the identifiers of the new import batch — every new-batch
record appears, and records present only in the existing snapshot are
dropped rather than kept. -/
theorem c1_amended_output_ids (newConns : List Connection)
    (existing : List (Option String × ConnR)) :
    ((export_network newConns existing).map ConnR.id).Perm
      (newConns.map (fun c => Fld.val c.id)) := by
  unfold export_network
  refine ((pySort_perm exportKeyLt _).map ConnR.id).trans ?_
  rw [List.map_map]
  have heq : newConns.map (ConnR.id ∘ fun c =>
      match existing.lookup (some c.id) with
      | some old => preserveManual c.to_dict old
      | none => c.to_dict)
      = newConns.map (fun c => Fld.val c.id) := by
    apply List.map_congr_left
    intro c _
    simp only [Function.comp_apply]
    cases h : existing.lookup (some c.id) with
    | none => rfl
    | some old => rfl
  rw [heq]

set_option maxRecDepth 8000 in
/-- C2, counterexample: `stale_relationships` indexes `conn['name']` and
`conn['id']` directly, so a warm, stale connection record whose `name` and
`id` keys are absent makes the function raise KeyError — the derivation
functions do not tolerate arbitrary missing connection fields. -/
theorem c2_counterexample :
    stale_relationships ⟨2026, 10, 12⟩ c2Net 180 = .error PyErr.keyError := by
  rfl

/-- C2, amended: missing snapshot-level fields default to empty collections
and the functions are pure; records that trigger no insight may lack any
key. Only a connection record that satisfies an insight condition must
carry its `id` and `name` keys (they are indexed directly) — for
`stale_relationships` the staleness test, whose reference date `strptime`
must also parse, and for `watch_outs` recorded negatives. Under those
conditions neither function raises, and an empty connection list yields
empty insight lists. -/
theorem c2_amended_no_raise (today : Date) (thr : Nat) (net : Network)
    (conns : List ConnR)
    (hconns : pyIterConns net = .ok conns)
    (hstale : ∀ c ∈ conns, staleSelects (formatYmd (dateSub today thr)) c = true →
        c.id ≠ Fld.missing ∧ c.name ≠ Fld.missing
          ∧ (parseYmd ((staleRefDate c).getD "")).isSome)
    (hwatch : ∀ c ∈ conns, truthyL (c.negatives.getD []) = true →
        c.id ≠ Fld.missing ∧ c.name ≠ Fld.missing) :
    (∃ l, stale_relationships today net thr = .ok l)
    ∧ (∃ l, watch_outs net none = .ok l)
    ∧ (net.connections = Fld.val [] →
        stale_relationships today net thr = .ok [] ∧ watch_outs net none = .ok []) := by
  refine ⟨?_, ?_, ?_⟩
  · obtain ⟨xs, hxs⟩ := staleLoop_total today (formatYmd (dateSub today thr)) conns hstale
    exact ⟨_, by
      simp only [stale_relationships]
      rw [hconns, exceptBind_ok, hxs, exceptBind_ok]⟩
  · obtain ⟨xs, hxs⟩ := watchLoop_total conns hwatch
    exact ⟨_, by
      simp only [watch_outs]
      rw [hconns, exceptBind_ok, hxs]⟩
  · intro hempty
    have hn : net = { connections := Fld.val [] } := by
      cases net
      simp_all
    subst hn
    exact ⟨rfl, rfl⟩

/-- C3: after the import parser's message pass, a connection's
relationship strength is `"close"` iff its message count is at least 10,
`"warm"` iff the count is between 3 and 9, and `"cold"` otherwise —
including unmatched connections, which keep the parser's `"cold"` default
and count 0. -/
theorem c3_strength_thresholds (messages : List (String × List Msg))
    (conns : List Connection)
    (h0 : ∀ c ∈ conns, c.relationship_strength = "cold") :
    ∀ c' ∈ parseMessagesStrengths messages conns,
      (c'.relationship_strength = "close" ↔ 10 ≤ c'.message_count)
      ∧ (c'.relationship_strength = "warm" ↔ 3 ≤ c'.message_count ∧ c'.message_count < 10)
      ∧ (c'.relationship_strength = "cold" ↔ c'.message_count < 3) := by
  intro c' hc'
  obtain ⟨c, hc, rfl⟩ := List.mem_map.1 hc'
  have h0c := h0 c hc
  simp only [assignStrength]
  set m : List Msg := (if ((messages.lookup c.name).getD []).isEmpty = true
      then (messages.lookup c.first_name).getD []
      else (messages.lookup c.name).getD []) with hmdef
  by_cases hm : m.isEmpty = true
  · rw [if_pos hm]
    have hm0 : m.length = 0 := List.isEmpty_iff_length_eq_zero.mp hm
    refine ⟨?_, ?_, ?_⟩ <;> simp [h0c, hm0]
  · rw [if_neg hm]
    by_cases h10 : 10 ≤ m.length
    · rw [if_pos h10]
      split <;> (refine ⟨?_, ?_, ?_⟩ <;> simp <;> omega)
    · rw [if_neg h10]
      by_cases h3 : 3 ≤ m.length
      · rw [if_pos h3]
        split <;> (refine ⟨?_, ?_, ?_⟩ <;> simp <;> omega)
      · rw [if_neg h3]
        split <;> (refine ⟨?_, ?_, ?_⟩ <;> simp <;> omega)

/-- C3, witness at a concrete batch: Ann Lee with three matched messages
becomes warm, Cy Doe with none stays cold. -/
theorem c3_witness :
    (∀ c ∈ c3Conns, c.relationship_strength = "cold")
    ∧ ∀ c' ∈ parseMessagesStrengths c3Messages c3Conns,
        (c'.relationship_strength = "close" ↔ 10 ≤ c'.message_count)
        ∧ (c'.relationship_strength = "warm" ↔ 3 ≤ c'.message_count ∧ c'.message_count < 10)
        ∧ (c'.relationship_strength = "cold" ↔ c'.message_count < 3) :=
  ⟨by decide, c3_strength_thresholds c3Messages c3Conns (by decide)⟩

/-- C4: for a connection identifier present in both the old snapshot and
the new batch, the exported record keeps, for each of the twelve manual
enrichment fields, the old value when it is truthy (non-empty) and the
freshly computed value otherwise; all in the final sorted output. -/
theorem c4_manual_field_preservation (newConns : List Connection)
    (existing : List (Option String × ConnR)) (c : Connection) (old : ConnR)
    (hc : c ∈ newConns) (hl : existing.lookup (some c.id) = some old) :
    ∃ r ∈ export_network newConns existing,
      r.id = Fld.val c.id
      ∧ r.context = (if truthyS old.context.get? then old.context else c.to_dict.context)
      ∧ r.domains = (if truthyL old.domains.get? then old.domains else c.to_dict.domains)
      ∧ r.can_ask_for = (if truthyL old.can_ask_for.get? then old.can_ask_for else c.to_dict.can_ask_for)
      ∧ r.has_asked_you = (if truthyL old.has_asked_you.get? then old.has_asked_you else c.to_dict.has_asked_you)
      ∧ r.introduces_to = (if truthyL old.introduces_to.get? then old.introduces_to else c.to_dict.introduces_to)
      ∧ r.notes = (if truthyS old.notes.get? then old.notes else c.to_dict.notes)
      ∧ r.last_contact = (if truthyS old.last_contact.get? then old.last_contact else c.to_dict.last_contact)
      ∧ r.contact_frequency = (if truthyS old.contact_frequency.get? then old.contact_frequency else c.to_dict.contact_frequency)
      ∧ r.positives = (if truthyL old.positives.get? then old.positives else c.to_dict.positives)
      ∧ r.negatives = (if truthyL old.negatives.get? then old.negatives else c.to_dict.negatives)
      ∧ r.trust_level = (if truthyS old.trust_level.get? then old.trust_level else c.to_dict.trust_level)
      ∧ r.energy = (if truthyS old.energy.get? then old.energy else c.to_dict.energy)
      ∧ r.relationship_strength = c.to_dict.relationship_strength
      ∧ r.message_count = c.to_dict.message_count
      ∧ r.last_message = c.to_dict.last_message := by
  refine ⟨preserveManual c.to_dict old, ?_, ?_⟩
  · unfold export_network
    rw [(pySort_perm exportKeyLt _).mem_iff]
    refine List.mem_map.2 ⟨c, hc, ?_⟩
    rw [hl]
  · exact ⟨rfl, rfl, rfl, rfl, rfl, rfl, rfl, rfl, rfl, rfl, rfl, rfl, rfl, rfl, rfl, rfl⟩

/-- C4, witness: re-importing Alice (no trust set in the new data) against
an existing record with `trust_level = "high"` keeps the high trust level
and the old notes while the new message count wins. -/
theorem c4_witness :
    c4New ∈ [c4New]
    ∧ c4Existing.lookup (some c4New.id) = some c4Old
    ∧ ∃ r ∈ export_network [c4New] c4Existing,
        r.id = Fld.val c4New.id
        ∧ r.context = (if truthyS c4Old.context.get? then c4Old.context else c4New.to_dict.context)
        ∧ r.domains = (if truthyL c4Old.domains.get? then c4Old.domains else c4New.to_dict.domains)
        ∧ r.can_ask_for = (if truthyL c4Old.can_ask_for.get? then c4Old.can_ask_for else c4New.to_dict.can_ask_for)
        ∧ r.has_asked_you = (if truthyL c4Old.has_asked_you.get? then c4Old.has_asked_you else c4New.to_dict.has_asked_you)
        ∧ r.introduces_to = (if truthyL c4Old.introduces_to.get? then c4Old.introduces_to else c4New.to_dict.introduces_to)
        ∧ r.notes = (if truthyS c4Old.notes.get? then c4Old.notes else c4New.to_dict.notes)
        ∧ r.last_contact = (if truthyS c4Old.last_contact.get? then c4Old.last_contact else c4New.to_dict.last_contact)
        ∧ r.contact_frequency = (if truthyS c4Old.contact_frequency.get? then c4Old.contact_frequency else c4New.to_dict.contact_frequency)
        ∧ r.positives = (if truthyL c4Old.positives.get? then c4Old.positives else c4New.to_dict.positives)
        ∧ r.negatives = (if truthyL c4Old.negatives.get? then c4Old.negatives else c4New.to_dict.negatives)
        ∧ r.trust_level = (if truthyS c4Old.trust_level.get? then c4Old.trust_level else c4New.to_dict.trust_level)
        ∧ r.energy = (if truthyS c4Old.energy.get? then c4Old.energy else c4New.to_dict.energy)
        ∧ r.relationship_strength = c4New.to_dict.relationship_strength
        ∧ r.message_count = c4New.to_dict.message_count
        ∧ r.last_message = c4New.to_dict.last_message :=
  ⟨by simp, rfl, c4_manual_field_preservation [c4New] c4Existing c4New c4Old (by simp) rfl⟩

/-- C5: whenever `stale_relationships` returns, its result is exactly the
insights of the connections selected by the spec's staleness rule (strength
in {warm, close}, reference date `last_contact`-else-`last_message` present
and earlier, in the system's ISO-string date order, than now minus
`threshold_days`), with every high-priority insight (strength close) before
the medium ones (strength warm) and snapshot order preserved inside each
tier. -/
theorem c5_stale_selection_priority_order (today : Date) (thr : Nat)
    (net : Network) (conns : List ConnR) (l : List NetworkInsight)
    (hconns : pyIterConns net = .ok conns)
    (h : stale_relationships today net thr = .ok l) :
    l = ((conns.filter (staleSelects (formatYmd (dateSub today thr)))).map
          (staleInsightOf today)).filter (fun i => i.priority == "high")
      ++ ((conns.filter (staleSelects (formatYmd (dateSub today thr)))).map
          (staleInsightOf today)).filter (fun i => !(i.priority == "high"))
    ∧ ∀ c : ConnR, (staleInsightOf today c).priority
        = if c.relationship_strength.getD "cold" = some "close" then "high" else "medium" := by
  constructor
  · simp only [stale_relationships] at h
    rw [hconns, exceptBind_ok] at h
    cases hl : staleLoop today (formatYmd (dateSub today thr)) conns with
    | error e => rw [hl, exceptBind_err] at h; exact Except.noConfusion h
    | ok ins =>
      rw [hl, exceptBind_ok] at h
      simp only [Except.ok.injEq] at h
      rw [← h, pySortRevBool_eq, staleLoop_ok today _ conns ins hl]
  · intro c; rfl

/-- C6: whenever `generate_action_items` returns, it returns at most ten
actions, and on a snapshot with zero connections it returns exactly the
single high-priority import action, skipping every other analysis. -/
theorem c6_action_cap_and_empty_network (today : Date) (net : Network)
    (goals : Goals) (l : List Action)
    (h : generate_action_items today net goals = .ok l) :
    l.length ≤ 10
    ∧ importAction.priority = "high"
    ∧ (net.connections = Fld.val [] → l = [importAction]) := by
  simp only [generate_action_items] at h
  by_cases hc : truthyL (net.connections.getD []) = true
  · rw [if_neg (fun hn => hn hc)] at h
    cases h1 : stale_relationships today net with
    | error e => rw [h1, exceptBind_err] at h; exact Except.noConfusion h
    | ok stale =>
      rw [h1, exceptBind_ok] at h
      cases h2 : network_gaps net with
      | error e => rw [h2, exceptBind_err] at h; exact Except.noConfusion h
      | ok gaps =>
        rw [h2, exceptBind_ok] at h
        cases h3 : energizing_connections net with
        | error e => rw [h3, exceptBind_err] at h; exact Except.noConfusion h
        | ok energy =>
          rw [h3, exceptBind_ok] at h
          cases h4 : blind_spot_detection today net with
          | error e => rw [h4, exceptBind_err] at h; exact Except.noConfusion h
          | ok blind =>
            rw [h4, exceptBind_ok] at h
            cases h5 : stated_vs_revealed goals with
            | error e => rw [h5, exceptBind_err] at h; exact Except.noConfusion h
            | ok align =>
              rw [h5, exceptBind_ok] at h
              cases h6 : alignActionsE align with
              | error e => rw [h6, exceptBind_err] at h; exact Except.noConfusion h
              | ok a5 =>
                rw [h6, exceptBind_ok] at h
                simp only [Except.ok.injEq] at h
                refine ⟨?_, rfl, ?_⟩
                · rw [← h]
                  exact List.length_take_le 10 _
                · intro hempty
                  rw [hempty] at hc
                  simp [Fld.getD, truthyL] at hc
  · rw [if_pos hc] at h
    simp only [Except.ok.injEq] at h
    exact ⟨by rw [← h]; simp, rfl, fun _ => h.symm⟩

/-- C6, witness: on the empty snapshot the result is exactly the import
action. -/
theorem c6_witness :
    generate_action_items ⟨2026, 1, 1⟩ c6Net c6Goals = .ok [importAction]
    ∧ ([importAction].length ≤ 10
        ∧ importAction.priority = "high"
        ∧ (c6Net.connections = Fld.val [] → [importAction] = [importAction])) :=
  ⟨rfl, c6_action_cap_and_empty_network ⟨2026, 1, 1⟩ c6Net c6Goals [importAction] rfl⟩

/-- C7, counterexample: one connection carrying the tag `sales` three times
makes the tag-occurrence count 3, so `network_gaps` emits no insight for
`sales` — yet the number of connections tagged `sales` is 1, for which the
claim demands a medium thin-coverage insight. The code counts tag
occurrences, not connections. -/
theorem c7_counterexample :
    network_gaps c7Net (some ["sales"]) = .ok []
    ∧ connsTaggedCount [c7Conn] "sales" = 1 :=
  ⟨rfl, rfl⟩

/-- C7 (amended): for every target domain, with `occ` the number of domain
TAG OCCURRENCES that case-insensitively equal it: `occ = 0` yields the
high-priority gap insight, `1 ≤ occ ≤ 2` the medium thin-coverage insight
with that count, and `occ ≥ 3` no insight, in target-list order. -/
theorem c7_amended_gap_thresholds (net : Network) (tds : Option (List String))
    (conns : List ConnR) (tags : List String) (l : List NetworkInsight)
    (hconns : pyIterConns net = .ok conns)
    (htags : allDomainTags conns = .ok tags)
    (h : network_gaps net tds = .ok l) :
    l = (tds.getD defaultTargets).filterMap (fun d =>
      if (tags.map pyLower).count (pyLower d) = 0 then some (gapHigh d)
      else if (tags.map pyLower).count (pyLower d) < 3
        then some (gapMedium d ((tags.map pyLower).count (pyLower d)))
      else none) := by
  simp only [network_gaps] at h
  rw [hconns, exceptBind_ok, htags, exceptBind_ok] at h
  simp only [Except.ok.injEq] at h
  rw [← h]
  simp only [countsOf_get]

/-- C7, witness: two connections tagged design (occurrence count 2) give
the medium insight, zero fundraising tags give the high gap. -/
theorem c7_witness :
    pyIterConns c7WNet = .ok c7WConns
    ∧ allDomainTags c7WConns = .ok ["Design", "design"]
    ∧ network_gaps c7WNet (some ["design", "fundraising"]) = .ok c7WOut
    ∧ c7WOut = ((some ["design", "fundraising"]).getD defaultTargets).filterMap (fun d =>
        if ((["Design", "design"].map pyLower).count (pyLower d)) = 0 then some (gapHigh d)
        else if ((["Design", "design"].map pyLower).count (pyLower d)) < 3
          then some (gapMedium d ((["Design", "design"].map pyLower).count (pyLower d)))
        else none) :=
  ⟨rfl, rfl, rfl,
    c7_amended_gap_thresholds c7WNet (some ["design", "fundraising"])
      c7WConns ["Design", "design"] c7WOut rfl rfl rfl⟩

/-- C8, counterexample: the SDK's load path is fatal on a missing source
file — `load_yaml` raises FileNotFoundError and `load_network` propagates
it, contradicting "never fatal ... including the SDK's load path". -/
theorem c8_counterexample :
    sdk_load_network none = .error PyErr.fileNotFoundError :=
  rfl

/-- C8 (amended): the analysis-side loader turns a missing `network.yaml`
into the empty snapshot and every embedded derivation and aggregation
function then runs without error; the SDK's loader instead raises
FileNotFoundError on the missing file. -/
theorem c8_amended_missing_file (today : Date) (goals : Goals) :
    intel_load_network none = { connections := Fld.val [] }
    ∧ stale_relationships today (intel_load_network none) = .ok []
    ∧ network_gaps (intel_load_network none) = .ok (defaultTargets.map gapHigh)
    ∧ energizing_connections (intel_load_network none) = .ok []
    ∧ watch_outs (intel_load_network none) = .ok []
    ∧ blind_spot_detection today (intel_load_network none) = .ok []
    ∧ relationship_trajectory today (intel_load_network none) = .ok []
    ∧ generate_action_items today (intel_load_network none) goals = .ok [importAction]
    ∧ sdk_load_network none = .error PyErr.fileNotFoundError := by
  exact ⟨rfl, rfl, rfl, rfl, rfl, rfl, rfl, rfl, rfl⟩

/-- C9: the gap stage of `generate_action_items` assigns every action it
derives priority medium (never high), it inspects only the first two
insights of the `network_gaps` output, and when neither of those two is a
high-priority gap it produces no action at all — so a high gap in third
position or later never yields an action item. -/
theorem c9_gap_stage (gaps : List NetworkInsight) :
    (∀ a ∈ gapActions gaps, a.priority = "medium")
    ∧ gapActions gaps = gapActions (gaps.take 2)
    ∧ ((∀ g ∈ gaps.take 2, g.priority ≠ "high") → gapActions gaps = []) := by
  refine ⟨?_, ?_, ?_⟩
  · intro a ha
    simp only [gapActions, List.mem_filterMap] at ha
    obtain ⟨g, hg, heq⟩ := ha
    by_cases hp : g.priority = "high"
    · rw [if_pos hp] at heq
      simp only [Option.some.injEq] at heq
      rw [← heq]
    · rw [if_neg hp] at heq
      exact Option.noConfusion heq
  · simp only [gapActions, List.take_take, min_self]
  · intro hg
    simp only [gapActions]
    refine List.filterMap_eq_nil_iff.mpr ?_
    intro g hgm
    rw [if_neg (hg g hgm)]

/-- C9, witness: with two medium thin-coverage insights first and a high
gap third, the gap stage produces no action. -/
theorem c9_witness :
    (∀ g ∈ c9Gaps.take 2, g.priority ≠ "high") ∧ gapActions c9Gaps = [] :=
  ⟨by decide, (c9_gap_stage c9Gaps).2.2 (by decide)⟩

set_option maxRecDepth 8000 in
/-- C5, witness: on a snapshot with a stale warm record, a stale close
record and a fresh record (today 2026-10-12, threshold 180), the close
insight comes first with priority high, the warm one second with medium. -/
theorem c5_witness :
    pyIterConns c5Net = .ok c5Conns
    ∧ stale_relationships ⟨2026, 10, 12⟩ c5Net 180 = .ok c5Out
    ∧ (c5Out = ((c5Conns.filter (staleSelects (formatYmd (dateSub ⟨2026, 10, 12⟩ 180)))).map
          (staleInsightOf ⟨2026, 10, 12⟩)).filter (fun i => i.priority == "high")
        ++ ((c5Conns.filter (staleSelects (formatYmd (dateSub ⟨2026, 10, 12⟩ 180)))).map
          (staleInsightOf ⟨2026, 10, 12⟩)).filter (fun i => !(i.priority == "high"))
      ∧ ∀ c : ConnR, (staleInsightOf ⟨2026, 10, 12⟩ c).priority
          = if c.relationship_strength.getD "cold" = some "close" then "high" else "medium") :=
  ⟨rfl, rfl,
    c5_stale_selection_priority_order ⟨2026, 10, 12⟩ 180 c5Net c5Conns c5Out rfl rfl⟩

/-- C10: the cooling classification of `relationship_trajectory` is a
function of `relationship_strength` and `last_message` only: changing
`last_contact` never changes it, a warm/close connection is cooling exactly
when a truthy `last_message` predates the cutoff, a connection without
`last_message` is never cooling, and the cooling pattern appears in the
output exactly when some connection passes that test. -/
theorem c10_cooling_ignores_last_contact (today : Date) (lb : Nat)
    (net : Network) (conns : List ConnR) (ps : List Pattern)
    (hconns : pyIterConns net = .ok conns)
    (h : relationship_trajectory today net lb = .ok ps)
    (c : ConnR) (lc : Fld String) :
    coolEntry? (formatYmd (dateSub today lb)) { c with last_contact := lc }
        = coolEntry? (formatYmd (dateSub today lb)) c
    ∧ ((coolEntry? (formatYmd (dateSub today lb)) c).isSome = true ↔
        ((c.relationship_strength.getD "cold" = some "warm"
            ∨ c.relationship_strength.getD "cold" = some "close")
          ∧ ∃ s, c.last_message.get? = some s ∧ s ≠ ""
              ∧ pyLt s (formatYmd (dateSub today lb)) = true))
    ∧ (c.last_message.get? = none → coolEntry? (formatYmd (dateSub today lb)) c = none)
    ∧ (ps.filter (fun p => p.type == "cooling") ≠ []
        ↔ conns.filterMap (coolEntry? (formatYmd (dateSub today lb))) ≠ []) := by
  refine ⟨rfl, ?_, ?_, ?_⟩
  · simp only [coolEntry?]
    split
    next s hlm =>
      rw [hlm]
      by_cases hcond : (c.relationship_strength.getD "cold" = some "warm"
          ∨ c.relationship_strength.getD "cold" = some "close")
          ∧ s ≠ "" ∧ pyLt s (formatYmd (dateSub today lb)) = true
      · rw [if_pos hcond]
        simp only [Option.isSome_some, true_iff]
        exact ⟨hcond.1, s, rfl, hcond.2.1, hcond.2.2⟩
      · rw [if_neg hcond]
        simp only [Option.isSome_none, Bool.false_eq_true, false_iff]
        intro ⟨h1, s', hs', h2, h3⟩
        simp only [Option.some.injEq] at hs'
        exact hcond ⟨h1, by rw [hs']; exact h2, by rw [hs']; exact h3⟩
    next hlm =>
      rw [hlm]
      simp
  · intro h0
    simp [coolEntry?, h0]
  · simp only [relationship_trajectory] at h
    rw [hconns, exceptBind_ok] at h
    cases htl : trajLoop (formatYmd (dateSub today lb)) conns with
    | error e => rw [htl, exceptBind_err] at h; exact Except.noConfusion h
    | ok pr =>
      obtain ⟨cool, warm⟩ := pr
      rw [htl, exceptBind_ok] at h
      simp only [Except.ok.injEq] at h
      have hcool := trajLoop_cooling (formatYmd (dateSub today lb)) conns cool warm htl
      rw [← h, ← hcool]
      by_cases h1 : cool.isEmpty = true
      · have hc0 : cool = [] := List.isEmpty_iff.mp h1
        by_cases h2 : warm.isEmpty = true
        · simp [h1, h2, hc0]
        · simp [h1, h2, hc0]
      · have hc0 : cool ≠ [] := fun he => h1 (by simp [he])
        by_cases h2 : warm.isEmpty = true
        · simp [h1, h2, hc0]
        · simp [h1, h2, hc0]

set_option maxRecDepth 8000 in
/-- C2, witness for the amended claim: the snapshot holds a triggering
well-formed record and a non-triggering record without `id`/`name` keys;
the scoped conditions hold and both functions succeed. -/
theorem c2_amended_witness :
    pyIterConns c2WNet = .ok [c2WConn, c2WConn2]
    ∧ c2WConn2.id = Fld.missing ∧ c2WConn2.name = Fld.missing
    ∧ (∀ c ∈ [c2WConn, c2WConn2],
        staleSelects (formatYmd (dateSub ⟨2026, 10, 12⟩ 180)) c = true →
          c.id ≠ Fld.missing ∧ c.name ≠ Fld.missing
            ∧ (parseYmd ((staleRefDate c).getD "")).isSome)
    ∧ (∀ c ∈ [c2WConn, c2WConn2], truthyL (c.negatives.getD []) = true →
        c.id ≠ Fld.missing ∧ c.name ≠ Fld.missing)
    ∧ (∃ l, stale_relationships ⟨2026, 10, 12⟩ c2WNet 180 = .ok l)
    ∧ (∃ l, watch_outs c2WNet none = .ok l) := by
  have h := c2_amended_no_raise ⟨2026, 10, 12⟩ 180 c2WNet [c2WConn, c2WConn2] rfl
    (by decide) (by decide)
  exact ⟨rfl, rfl, rfl, by decide, by decide, h.1, h.2.1⟩

set_option maxRecDepth 8000 in
/-- C10, witness: a warm connection whose `last_contact` is recent
(2026-10-01) but whose `last_message` is old (2020-01-01) still passes the
cooling test on 2026-10-12 with the default 90-day lookback. -/
theorem c10_witness :
    pyIterConns c10Net = .ok [c10Conn]
    ∧ relationship_trajectory ⟨2026, 10, 12⟩ c10Net 90 = .ok c10Ps
    ∧ ((c10Conn.relationship_strength.getD "cold" = some "warm"
          ∨ c10Conn.relationship_strength.getD "cold" = some "close")
        ∧ ∃ s, c10Conn.last_message.get? = some s ∧ s ≠ ""
            ∧ pyLt s (formatYmd (dateSub ⟨2026, 10, 12⟩ 90)) = true) :=
  ⟨rfl, rfl,
    ((c10_cooling_ignores_last_contact ⟨2026, 10, 12⟩ 90 c10Net [c10Conn] c10Ps rfl rfl
        c10Conn (Fld.val "2026-10-01")).2.1).mp (by decide)⟩

end Brain
